import Mathlib

/-!
Verification of the BootstrapSheet bottom-sheet component
(src/js/bootstrap-sheet.js, src/js/utils.js, src/js/constants.js).

The development shallowly embeds the parts of the component that the
verified properties speak about: the drag/gesture math, the drag-end
decision, the show/hide lifecycle steps, event dispatch, focus
restoration, the outside-content inert bookkeeping, the body padding
compensation, and the constructor with configuration type validation.
JavaScript numbers are modelled as rationals, DOM nodes as records,
and the per-element instance registry as an association list.
-/

namespace BootstrapSheet

/-- Value of the `backdrop` configuration option: `false`, `true`, or
the string `"static"` in the JavaScript source. -/
inductive BackdropSetting
  | off
  | enabled
  | staticBackdrop
  deriving DecidableEq, Repr

/-- Configuration object, after merging defaults, data attributes and
user overrides (`constants.js` lists the fields and defaults). -/
structure Config where
  backdrop : BackdropSetting
  keyboard : Bool
  focus : Bool
  gestures : Bool
  swipeThreshold : ℚ
  velocityThreshold : ℚ
  minCloseDistance : ℚ
  closeThresholdRatio : ℚ
  animationDuration : ℚ
  projectionTime : ℚ
  dragResistanceUp : ℚ
  dragResistanceDown : ℚ
  deriving DecidableEq, Repr

/-- The default configuration from `constants.js`. -/
def defaultConfig : Config where
  backdrop := .enabled
  keyboard := true
  focus := true
  gestures := true
  swipeThreshold := 50
  velocityThreshold := 0.5
  minCloseDistance := 50
  closeThresholdRatio := 0.3
  animationDuration := 300
  projectionTime := 200
  dragResistanceUp := 0.75
  dragResistanceDown := 0.01

/-- Gesture tracking state (the private `#gesture` object). -/
structure Gesture where
  startY : ℚ
  currentY : ℚ
  lastY : ℚ
  startTime : ℚ
  lastTime : ℚ
  velocity : ℚ
  startTranslateY : ℚ
  sheetHeight : ℚ
  deriving DecidableEq, Repr

/-- `clamp` from `utils.js`: `Math.max(min, Math.min(max, value))`. -/
def clamp (value lo hi : ℚ) : ℚ := max lo (min hi value)

/-- `#onPointerDown`: gesture-state initialisation on drag start. -/
def onPointerDown (g : Gesture) (clientY now startTranslateY : ℚ) : Gesture :=
  { g with
    startY := clientY
    currentY := clientY
    lastY := clientY
    startTime := now
    lastTime := now
    velocity := 0
    startTranslateY := startTranslateY }

/-- `#onPointerMove`: updates `currentY`, recomputes the velocity when
the elapsed time is positive, then records `lastY` and `lastTime`. -/
def onPointerMove (g : Gesture) (clientY now : ℚ) : Gesture :=
  let g1 := { g with currentY := clientY }
  let deltaTime := now - g1.lastTime
  let g2 :=
    if 0 < deltaTime then
      { g1 with velocity := (g1.currentY - g1.lastY) / deltaTime }
    else g1
  { g2 with lastY := g2.currentY, lastTime := now }

/-- `#calculateResistantPosition`: saturating drag resistance.  For a
zero delta the start offset is returned unchanged; otherwise
`scale = sheetHeight * 0.25`, the resistance coefficient is chosen by
drag direction, and the adjusted delta is
`(deltaY * scale) / (scale + resistance * |deltaY|)`. -/
def calculateResistantPosition (cfg : Config) (g : Gesture) (deltaY : ℚ) : ℚ :=
  if deltaY = 0 then g.startTranslateY
  else
    let scale := g.sheetHeight * 0.25
    let resistance := if deltaY < 0 then cfg.dragResistanceUp else cfg.dragResistanceDown
    let adjustedDelta := (deltaY * scale) / (scale + resistance * |deltaY|)
    g.startTranslateY + adjustedDelta

/-- Detail payload of the `slide` event. -/
structure SlideDetail where
  velocity : ℚ
  adjustedY : ℚ
  deltaY : ℚ
  ratio : ℚ
  deriving DecidableEq, Repr

/-- Observable outcome of one `#updateDragPosition` frame: the applied
transform, the backdrop opacity that is written, and the `slide`
event detail. -/
structure DragFrame where
  transformY : ℚ
  backdropOpacity : ℚ
  detail : SlideDetail
  deriving DecidableEq, Repr

/-- `#updateBackdropOpacity`: clamps the ratio to `[0,1]` before
writing it as the backdrop opacity. -/
def updateBackdropOpacity (ratio : ℚ) : ℚ := clamp ratio 0 1

/-- `#updateDragPosition`: computes the resistant position, derives
`ratio = 1 - adjustedY / sheetHeight` (with `0` substituted for the
quotient when the height is zero), forwards a clamped copy to the
backdrop, and emits the `slide` detail with the raw ratio. -/
def updateDragPosition (cfg : Config) (g : Gesture) (deltaY : ℚ) : DragFrame :=
  let adjustedY := calculateResistantPosition cfg g deltaY
  let ratio := 1 - (if g.sheetHeight ≠ 0 then adjustedY / g.sheetHeight else 0)
  { transformY := adjustedY
    backdropOpacity := updateBackdropOpacity (clamp ratio 0 1)
    detail :=
      { velocity := g.velocity
        adjustedY := adjustedY
        deltaY := deltaY
        ratio := ratio } }

/-- Outcome of `#handleDragEnd`: the target offset passed to
`#animateToPosition` and whether `hide()` is scheduled to run when the
settle animation completes. -/
structure DragEndOutcome where
  targetY : ℚ
  hideOnComplete : Bool
  deriving DecidableEq, Repr

/-- `#handleDragEnd`: terminal decision on pointer release.  A net
upward drag always snaps back; otherwise the sheet closes when the
velocity-projected delta exceeds `max(swipeThreshold, sheetHeight *
closeThresholdRatio)` or when the speed exceeds `velocityThreshold`
and the raw delta exceeds `minCloseDistance`. -/
def handleDragEnd (cfg : Config) (g : Gesture) : DragEndOutcome :=
  let deltaY := g.currentY - g.startY
  let velocity := g.velocity
  let projectedDelta := deltaY + velocity * cfg.projectionTime
  if deltaY < 0 then
    { targetY := 0, hideOnComplete := false }
  else
    let threshold := max cfg.swipeThreshold (g.sheetHeight * cfg.closeThresholdRatio)
    if projectedDelta > threshold ∨
        (|velocity| > cfg.velocityThreshold ∧ deltaY > cfg.minCloseDistance) then
      { targetY := g.sheetHeight, hideOnComplete := true }
    else
      { targetY := 0, hideOnComplete := false }

lemma onPointerMove_lastY_eq_currentY (g : Gesture) (clientY now : ℚ) :
    (onPointerMove g clientY now).lastY = (onPointerMove g clientY now).currentY := by
  unfold onPointerMove
  by_cases h : 0 < now - g.lastTime <;> simp [h]

lemma onPointerDown_lastY_eq_currentY (g : Gesture) (clientY now s : ℚ) :
    (onPointerDown g clientY now s).lastY = (onPointerDown g clientY now s).currentY := rfl

/-- Claim C1: when a drag session ends, with `rawDelta = lastY - startY`
and `projected = rawDelta + velocity * projectionTime`, a net upward
drag (`rawDelta < 0`) always settles to offset 0 without closing;
otherwise, with `threshold = max(swipeThreshold, sheetHeight *
closeThresholdRatio)`, the sheet settles to `sheetHeight` and invokes
`hide()` exactly when `projected > threshold` or when `|velocity| >
velocityThreshold` and `rawDelta > minCloseDistance`; in every other
case it snaps back to offset 0 without closing. -/
theorem handleDragEnd_spec (cfg : Config) (g : Gesture)
    (rawDelta projected threshold : ℚ)
    (hsync : g.lastY = g.currentY)
    (hraw : rawDelta = g.lastY - g.startY)
    (hproj : projected = rawDelta + g.velocity * cfg.projectionTime)
    (hthr : threshold = max cfg.swipeThreshold (g.sheetHeight * cfg.closeThresholdRatio)) :
    (rawDelta < 0 → handleDragEnd cfg g = { targetY := 0, hideOnComplete := false }) ∧
    (0 ≤ rawDelta →
      ((handleDragEnd cfg g = { targetY := g.sheetHeight, hideOnComplete := true } ∧
          (handleDragEnd cfg g).hideOnComplete = true) ↔
        (projected > threshold ∨
          (|g.velocity| > cfg.velocityThreshold ∧ rawDelta > cfg.minCloseDistance)))) ∧
    (0 ≤ rawDelta →
      ¬(projected > threshold ∨
          (|g.velocity| > cfg.velocityThreshold ∧ rawDelta > cfg.minCloseDistance)) →
      handleDragEnd cfg g = { targetY := 0, hideOnComplete := false }) := by
  subst hraw hproj hthr
  rw [hsync]
  unfold handleDragEnd
  refine ⟨fun hneg => ?_, fun hnonneg => ?_, fun hnonneg hnot => ?_⟩
  · simp [hneg]
  · rw [if_neg (not_lt.mpr hnonneg)]
    by_cases hclose :
        g.currentY - g.startY + g.velocity * cfg.projectionTime >
            max cfg.swipeThreshold (g.sheetHeight * cfg.closeThresholdRatio) ∨
          (|g.velocity| > cfg.velocityThreshold ∧
            g.currentY - g.startY > cfg.minCloseDistance)
    · rw [if_pos hclose]
      exact iff_of_true ⟨rfl, rfl⟩ hclose
    · rw [if_neg hclose]
      exact iff_of_false (fun h => by simpa using h.2) hclose
  · rw [if_neg (not_lt.mpr hnonneg), if_neg hnot]

/-- Concrete witness for `handleDragEnd_spec`: sheet height 400,
default thresholds, a 210 px downward drag with zero velocity closes
the sheet (210 > max(50, 120)). -/
theorem handleDragEnd_spec_witness :
    handleDragEnd defaultConfig
        { startY := 0, currentY := 210, lastY := 210, startTime := 0, lastTime := 100,
          velocity := 0, startTranslateY := 0, sheetHeight := 400 } =
      { targetY := 400, hideOnComplete := true } := by
  have h := handleDragEnd_spec defaultConfig
    { startY := 0, currentY := 210, lastY := 210, startTime := 0, lastTime := 100,
      velocity := 0, startTranslateY := 0, sheetHeight := 400 }
    210 210 (max 50 120) rfl (by norm_num) (by norm_num)
    (by norm_num [defaultConfig])
  have hclose := (h.2.1 (by norm_num)).mpr (Or.inl (by norm_num))
  simpa [defaultConfig] using hclose.1

section ResistanceMath

variable {scale r x₁ x₂ : ℚ}

lemma resistMag_pos (hs : 0 < scale) (hr : 0 < r) (hx : 0 < x₁) :
    0 < x₁ * scale / (scale + r * x₁) := by positivity

lemma resistMag_le (hs : 0 < scale) (hr : 0 < r) (hx : 0 < x₁) :
    x₁ * scale / (scale + r * x₁) ≤ x₁ := by
  rw [div_le_iff₀ (by positivity)]
  nlinarith [mul_pos hr hx]

lemma resistMag_lt_bound (hs : 0 < scale) (hr : 0 < r) (hx : 0 < x₁) :
    x₁ * scale / (scale + r * x₁) < scale / r := by
  rw [div_lt_div_iff₀ (by positivity) hr]
  nlinarith [mul_pos hs hs]

lemma resistMag_strictMono (hs : 0 < scale) (hr : 0 < r) (hx : 0 < x₁) (hlt : x₁ < x₂) :
    x₁ * scale / (scale + r * x₁) < x₂ * scale / (scale + r * x₂) := by
  have hx₂ : 0 < x₂ := lt_trans hx hlt
  rw [div_lt_div_iff₀ (by positivity) (by positivity)]
  nlinarith [mul_pos (mul_pos hs hs) (sub_pos.mpr hlt)]

end ResistanceMath

lemma calculateResistantPosition_of_ne (cfg : Config) (g : Gesture) {d : ℚ} (hd : d ≠ 0) :
    calculateResistantPosition cfg g d =
      g.startTranslateY +
        d * (g.sheetHeight * 0.25) /
          (g.sheetHeight * 0.25 +
            (if d < 0 then cfg.dragResistanceUp else cfg.dragResistanceDown) * |d|) := by
  simp [calculateResistantPosition, hd]

lemma resistantDelta_abs (cfg : Config) (g : Gesture) {d scale r : ℚ}
    (hs : 0 < scale) (hr : 0 < r) (hd : d ≠ 0)
    (hscale : scale = g.sheetHeight * 0.25)
    (hrsel : r = if d < 0 then cfg.dragResistanceUp else cfg.dragResistanceDown) :
    |calculateResistantPosition cfg g d - g.startTranslateY| =
      |d| * scale / (scale + r * |d|) := by
  rw [calculateResistantPosition_of_ne cfg g hd, ← hscale, ← hrsel, add_sub_cancel_left]
  have habs : 0 < |d| := abs_pos.mpr hd
  rw [abs_div, abs_mul, abs_of_pos hs, abs_of_pos (by positivity : (0:ℚ) < scale + r * |d|)]

/-- Claim C2: for sheet height `h > 0`, resistance coefficients in
`(0,1]`, arbitrary start offset and nonzero raw delta `d`, the
resistance function with `scale = h * 0.25` and `r` the coefficient
selected by the drag direction returns
`startOffset + (d * scale) / (scale + r * |d|)`; the adjusted delta
has the sign of `d`, its magnitude never exceeds `|d|`, it is
strictly increasing in `|d|` (for deltas of the same direction), and
it is bounded by `scale / r`. -/
theorem calculateResistantPosition_spec (cfg : Config) (g : Gesture) (d d' scale r : ℚ)
    (hh : 0 < g.sheetHeight)
    (hup : 0 < cfg.dragResistanceUp) (hup1 : cfg.dragResistanceUp ≤ 1)
    (hdown : 0 < cfg.dragResistanceDown) (hdown1 : cfg.dragResistanceDown ≤ 1)
    (hd : d ≠ 0) (hd' : d' ≠ 0)
    (hscale : scale = g.sheetHeight * 0.25)
    (hrsel : r = if d < 0 then cfg.dragResistanceUp else cfg.dragResistanceDown) :
    calculateResistantPosition cfg g d =
        g.startTranslateY + d * scale / (scale + r * |d|) ∧
      (0 < d → 0 < calculateResistantPosition cfg g d - g.startTranslateY) ∧
      (d < 0 → calculateResistantPosition cfg g d - g.startTranslateY < 0) ∧
      |calculateResistantPosition cfg g d - g.startTranslateY| ≤ |d| ∧
      |calculateResistantPosition cfg g d - g.startTranslateY| < scale / r ∧
      (((0 < d ∧ 0 < d') ∨ (d < 0 ∧ d' < 0)) → |d| < |d'| →
        |calculateResistantPosition cfg g d - g.startTranslateY| <
          |calculateResistantPosition cfg g d' - g.startTranslateY|) := by
  have hs : 0 < scale := by rw [hscale]; positivity
  have hr : 0 < r := by
    rw [hrsel]; by_cases hneg : d < 0 <;> simp [hneg, hup, hdown]
  have habs : 0 < |d| := abs_pos.mpr hd
  have hdenom : 0 < scale + r * |d| := by positivity
  have heq : calculateResistantPosition cfg g d =
      g.startTranslateY + d * scale / (scale + r * |d|) := by
    rw [calculateResistantPosition_of_ne cfg g hd, ← hscale, ← hrsel]
  have hmag := resistantDelta_abs cfg g hs hr hd hscale hrsel
  refine ⟨heq, ?_, ?_, ?_, ?_, ?_⟩
  · intro hpos
    rw [heq, add_sub_cancel_left]
    positivity
  · intro hneg
    rw [heq, add_sub_cancel_left]
    apply div_neg_of_neg_of_pos _ hdenom
    exact mul_neg_of_neg_of_pos hneg hs
  · rw [hmag]; exact resistMag_le hs hr habs
  · rw [hmag]; exact resistMag_lt_bound hs hr habs
  · intro hsame hlt
    have hrsel' : r = if d' < 0 then cfg.dragResistanceUp else cfg.dragResistanceDown := by
      rcases hsame with ⟨h1, h2⟩ | ⟨h1, h2⟩
      · rw [hrsel, if_neg (not_lt.mpr h1.le), if_neg (not_lt.mpr h2.le)]
      · rw [hrsel, if_pos h1, if_pos h2]
    have hmag' := resistantDelta_abs cfg g hs hr hd' hscale hrsel'
    rw [hmag, hmag']
    exact resistMag_strictMono hs hr habs hlt

/-- Concrete witness for `calculateResistantPosition_spec`: height
400, default resistance coefficients, downward deltas 100 and 200. -/
theorem calculateResistantPosition_spec_witness :
    calculateResistantPosition defaultConfig
        { startY := 0, currentY := 100, lastY := 100, startTime := 0, lastTime := 100,
          velocity := 0, startTranslateY := 0, sheetHeight := 400 } 100 =
      0 + 100 * 100 / (100 + 0.01 * |(100 : ℚ)|) := by
  have h := calculateResistantPosition_spec defaultConfig
    { startY := 0, currentY := 100, lastY := 100, startTime := 0, lastTime := 100,
      velocity := 0, startTranslateY := 0, sheetHeight := 400 }
    100 200 100 0.01
    (by norm_num) (by norm_num [defaultConfig]) (by norm_num [defaultConfig])
    (by norm_num [defaultConfig]) (by norm_num [defaultConfig])
    (by norm_num) (by norm_num) (by norm_num)
    (by norm_num [defaultConfig])
  simpa [defaultConfig] using h.1


/-- A drag gesture state used as concrete input: sheet height 400,
panel at offset 0 when the drag started, pointer moved 100 px up. -/
def upwardDragGesture : Gesture where
  startY := 200
  currentY := 100
  lastY := 100
  startTime := 0
  lastTime := 100
  velocity := -1
  startTranslateY := 0
  sheetHeight := 400

/-- Counterexample to claim C3: an upward drag of 100 px on a 400 px
sheet with default resistance produces an adjusted offset of -400/7,
and the `slide` detail then carries `ratio = 8/7 > 1` — the emitted
ratio is not confined to `[0,1]`. -/
theorem slide_ratio_counterexample :
    (updateDragPosition defaultConfig upwardDragGesture (-100)).detail.ratio = 8 / 7 ∧
      ¬((updateDragPosition defaultConfig upwardDragGesture (-100)).detail.ratio ≤ 1) := by
  have hval : (updateDragPosition defaultConfig upwardDragGesture (-100)).detail.ratio = 8 / 7 := by
    norm_num [updateDragPosition, calculateResistantPosition, defaultConfig,
      upwardDragGesture, abs_of_nonpos]
  exact ⟨hval, by rw [hval]; norm_num⟩

lemma clamp_nonneg {v hi : ℚ} (hhi : 0 ≤ hi) : 0 ≤ clamp v 0 hi := le_max_left 0 _

lemma clamp_le {v hi : ℚ} (hhi : 0 ≤ hi) : clamp v 0 hi ≤ hi :=
  max_le hhi (min_le_left hi v)

lemma clamp_clamp (v : ℚ) : clamp (clamp v 0 1) 0 1 = clamp v 0 1 := by
  have h1 : 0 ≤ clamp v 0 1 := clamp_nonneg (by norm_num)
  have h2 : clamp v 0 1 ≤ 1 := clamp_le (by norm_num)
  unfold clamp at h1 h2 ⊢
  rw [min_eq_right h2, max_eq_right h1]

/-- Claim C3 amended: during a drag position update, the backdrop
opacity written is the ratio clamped to `[0,1]` (so it always lies in
`[0,1]`), but the `slide` notification detail carries the raw value
`1 - adjustedOffset / sheetHeight` (with the quotient read as 0 when
the sheet height is 0), which is not clamped and leaves `[0,1]` for
negative adjusted offsets or offsets beyond the sheet height. -/
theorem updateDragPosition_ratio_spec (cfg : Config) (g : Gesture) (d : ℚ) :
    (updateDragPosition cfg g d).detail.ratio =
        1 - (if g.sheetHeight ≠ 0 then calculateResistantPosition cfg g d / g.sheetHeight else 0) ∧
      (updateDragPosition cfg g d).backdropOpacity =
        clamp ((updateDragPosition cfg g d).detail.ratio) 0 1 ∧
      0 ≤ (updateDragPosition cfg g d).backdropOpacity ∧
      (updateDragPosition cfg g d).backdropOpacity ≤ 1 := by
  refine ⟨rfl, ?_, ?_, ?_⟩
  · exact clamp_clamp _
  · exact clamp_nonneg (by norm_num)
  · exact clamp_le (by norm_num)

/-- Names of the lifecycle notifications (`EVENT` in `constants.js`). -/
inductive EventName
  | showEvent
  | shownEvent
  | hideEvent
  | hiddenEvent
  | slideEvent
  deriving DecidableEq, Repr

/-- The observable flags of the `CustomEvent` constructed by
`#triggerEvent`. -/
structure CustomEventFlags where
  name : EventName
  bubbles : Bool
  cancelable : Bool
  deriving DecidableEq, Repr

/-- `#triggerEvent`: every notification is dispatched as a bubbling
`CustomEvent` constructed with `bubbles: true, cancelable: true`. -/
def triggerEvent (name : EventName) : CustomEventFlags :=
  { name := name, bubbles := true, cancelable := true }

/-- How the ambient listeners react to each dispatched notification:
whether `preventDefault()` is called on it. -/
structure ListenerEnv where
  preventShow : Bool
  preventHide : Bool
  preventShown : Bool
  preventHidden : Bool
  preventSlide : Bool
  deriving DecidableEq, Repr

/-- The lifecycle-relevant per-instance state: the `#state` flags plus
the DOM-visible markers that `show()` / `hide()` manipulate. -/
structure SheetState where
  elementPresent : Bool
  isShown : Bool
  isTransitioning : Bool
  isDragging : Bool
  hasBackdrop : Bool
  showingClass : Bool
  showClass : Bool
  hidingClass : Bool
  draggingClass : Bool
  deriving DecidableEq, Repr

/-- Result of the synchronous part of `show()` or `hide()`: the state
afterwards, the notifications dispatched, and whether a backdrop
element was created during the call. -/
structure StepResult where
  state : SheetState
  events : List EventName
  backdropCreated : Bool
  deriving DecidableEq, Repr

/-- Synchronous part of `show()`: guarded no-op when the element is
gone or the sheet is shown or transitioning; otherwise dispatches the
cancelable `show` notification and, unless prevented, runs
`#prepareShow` and `#executeShow` (state flags, backdrop, `showing`
and `show` classes). -/
def showStep (cfg : Config) (env : ListenerEnv) (s : SheetState) : StepResult :=
  if !s.elementPresent then
    { state := s, events := [], backdropCreated := false }
  else if s.isShown || s.isTransitioning then
    { state := s, events := [], backdropCreated := false }
  else if env.preventShow then
    { state := s, events := [EventName.showEvent], backdropCreated := false }
  else
    { state :=
        { s with
          isShown := true
          isTransitioning := true
          hasBackdrop := s.hasBackdrop || decide (cfg.backdrop ≠ BackdropSetting.off)
          showingClass := true
          showClass := true }
      events := [EventName.showEvent]
      backdropCreated := decide (cfg.backdrop ≠ BackdropSetting.off) && !s.hasBackdrop }

/-- Synchronous part of `hide()`: guarded no-op when the element is
gone or the sheet is not shown or transitioning; otherwise dispatches
the cancelable `hide` notification and, unless prevented, runs
`#prepareHide` and `#executeHide` (state flags, drag abort, class
changes). -/
def hideStep (cfg : Config) (env : ListenerEnv) (s : SheetState) : StepResult :=
  if !s.elementPresent then
    { state := s, events := [], backdropCreated := false }
  else if !s.isShown || s.isTransitioning then
    { state := s, events := [], backdropCreated := false }
  else if env.preventHide then
    { state := s, events := [EventName.hideEvent], backdropCreated := false }
  else
    { state :=
        { s with
          isShown := false
          isTransitioning := true
          isDragging := false
          hidingClass := true
          draggingClass := false
          showClass := false }
      events := [EventName.hideEvent]
      backdropCreated := false }

/-- An element that may be focused; `hasFocusMethod` models the
`typeof element.focus === 'function'` runtime check. -/
structure Elem where
  id : ℕ
  hasFocusMethod : Bool
  deriving DecidableEq, Repr

/-- `#restoreFocus`: focuses the captured previous element when it
exists and still exposes a `focus` method; returns the element that
receives focus, if any. -/
def restoreFocus (previousElement : Option Elem) : Option Elem :=
  match previousElement with
  | some e => if e.hasFocusMethod then some e else none
  | none => none

/-- Inline body styles touched by the scrollbar compensation. -/
structure BodyStyle where
  paddingRight : String
  overflow : String
  deriving DecidableEq, Repr

/-- `#adjustBodyPadding`: when the document overflows and a scrollbar
width is measured, sets an inline right padding and hides overflow. -/
def adjustBodyPadding (isOverflowing : Bool) (scrollbarWidth : ℤ) (b : BodyStyle) : BodyStyle :=
  if isOverflowing then
    if 0 < scrollbarWidth then
      { paddingRight := toString scrollbarWidth ++ "px", overflow := "hidden" }
    else b
  else b

/-- `#resetBodyPadding`: unconditionally sets both inline styles to
the empty string. -/
def resetBodyPadding (_b : BodyStyle) : BodyStyle :=
  { paddingRight := "", overflow := "" }

/-- Observable effects of `#finalizeHide` (the hide-transition
completion callback): it clears the `hiding` class and the
transitioning flag, removes the backdrop, resets the body styles,
restores focus via `#restoreFocus`, and emits `hidden`. -/
structure HideFinalEffects where
  hidingClassRemoved : Bool
  isTransitioning : Bool
  backdropRemoved : Bool
  bodyStyleAfter : BodyStyle
  focusedElement : Option Elem
  events : List EventName
  deriving DecidableEq, Repr

/-- `#finalizeHide`, parameterised by the configuration, the captured
previously-focused element, and the body style at completion time.
The focus restoration is performed unconditionally; the configuration
is not consulted at this point. -/
def finalizeHide (cfg : Config) (previousElement : Option Elem) (b : BodyStyle) :
    HideFinalEffects :=
  { hidingClassRemoved := true
    isTransitioning := false
    backdropRemoved := true
    bodyStyleAfter := resetBodyPadding b
    focusedElement := restoreFocus previousElement
    events := [EventName.hiddenEvent] }

/-- A configuration with focus containment disabled. -/
def noFocusConfig : Config := { defaultConfig with focus := false }

/-- Counterexample to claim C4: with the `focus` option disabled and a
focusable captured previous element, `#finalizeHide` still restores
focus to it — restoration is not suppressed by the option. -/
theorem restoreFocus_counterexample :
    noFocusConfig.focus = false ∧
      (finalizeHide noFocusConfig (some { id := 7, hasFocusMethod := true })
            { paddingRight := "", overflow := "" }).focusedElement =
        some { id := 7, hasFocusMethod := true } := ⟨rfl, rfl⟩

/-- Claim C4 amended: at hide-transition completion, focus is restored
to the captured previous element exactly when one was captured and it
still exposes a `focus` method; the `focus` configuration option is
not consulted, so the restoration also happens when the option is
disabled. -/
theorem finalizeHide_focus_spec (cfg : Config) (previousElement : Option Elem) (b : BodyStyle) :
    ((finalizeHide cfg previousElement b).focusedElement ≠ none ↔
        ∃ e : Elem, previousElement = some e ∧ e.hasFocusMethod = true) ∧
      (finalizeHide cfg previousElement b).focusedElement =
        (finalizeHide { cfg with focus := !cfg.focus } previousElement b).focusedElement := by
  constructor
  · show restoreFocus previousElement ≠ none ↔ _
    cases previousElement with
    | none => simp [restoreFocus]
    | some e =>
      by_cases hf : e.hasFocusMethod <;> simp [restoreFocus, hf]
  · rfl

/-- Counterexample to claim C5: the `shown`, `hidden` and `slide`
notifications are all constructed with the `cancelable` flag set,
not as non-cancelable events. -/
theorem triggerEvent_cancelable_counterexample :
    (triggerEvent EventName.shownEvent).cancelable = true ∧
      (triggerEvent EventName.hiddenEvent).cancelable = true ∧
      (triggerEvent EventName.slideEvent).cancelable = true := ⟨rfl, rfl, rfl⟩

/-- Claim C5 amended: `#triggerEvent` dispatches every notification —
`show`, `shown`, `hide`, `hidden` and `slide` alike — as a bubbling
event with the `cancelable` flag set to `true`; cancellation is
honoured only for the pre-visual `show` and `hide` notifications, in
that `show()` and `hide()` depend on the listener environment only
through its reaction to those two events. -/
theorem triggerEvent_flags_spec :
    (∀ e : EventName, (triggerEvent e).cancelable = true ∧ (triggerEvent e).bubbles = true) ∧
      (∀ (cfg : Config) (env₁ env₂ : ListenerEnv) (s : SheetState),
        env₁.preventShow = env₂.preventShow → showStep cfg env₁ s = showStep cfg env₂ s) ∧
      (∀ (cfg : Config) (env₁ env₂ : ListenerEnv) (s : SheetState),
        env₁.preventHide = env₂.preventHide → hideStep cfg env₁ s = hideStep cfg env₂ s) := by
  refine ⟨fun e => ⟨rfl, rfl⟩, ?_, ?_⟩
  · intro cfg env₁ env₂ s h
    unfold showStep
    rw [h]
  · intro cfg env₁ env₂ s h
    unfold hideStep
    rw [h]

/-- The listener environment that never cancels anything. -/
def passiveEnv : ListenerEnv where
  preventShow := false
  preventHide := false
  preventShown := false
  preventHidden := false
  preventSlide := false

/-- The state of a freshly constructed, hidden sheet. -/
def hiddenState : SheetState where
  elementPresent := true
  isShown := false
  isTransitioning := false
  isDragging := false
  hasBackdrop := false
  showingClass := false
  showClass := false
  hidingClass := false
  draggingClass := false

/-- Witness for `triggerEvent_flags_spec` at concrete inputs. -/
theorem triggerEvent_flags_spec_witness :
    (triggerEvent EventName.showEvent).cancelable = true ∧
      showStep defaultConfig passiveEnv hiddenState =
        showStep defaultConfig { passiveEnv with preventShown := true } hiddenState :=
  ⟨(triggerEvent_flags_spec.1 EventName.showEvent).1,
    triggerEvent_flags_spec.2.1 defaultConfig passiveEnv
      { passiveEnv with preventShown := true } hiddenState rfl⟩

/-- Claim C6: `show()` while shown or transitioning, and `hide()`
while not shown or transitioning, are silent no-ops: no notification
is dispatched, no backdrop is created, and the state — in particular
`isShown` and `isTransitioning` — is unchanged. -/
theorem lifecycle_noop_spec (cfg : Config) (env : ListenerEnv) (s : SheetState) :
    ((s.isShown = true ∨ s.isTransitioning = true) →
        showStep cfg env s = { state := s, events := [], backdropCreated := false }) ∧
      ((s.isShown = false ∨ s.isTransitioning = true) →
        hideStep cfg env s = { state := s, events := [], backdropCreated := false }) := by
  constructor
  · intro h
    have hor : (s.isShown || s.isTransitioning) = true := by
      rcases h with h | h <;> simp [h]
    unfold showStep
    rcases Bool.eq_false_or_eq_true s.elementPresent with he | he <;>
      rw [he] <;> simp [hor]
  · intro h
    have hor : (!s.isShown || s.isTransitioning) = true := by
      rcases h with h | h <;> simp [h]
    unfold hideStep
    rcases Bool.eq_false_or_eq_true s.elementPresent with he | he <;>
      rw [he] <;> simp [hor]

/-- Witness for `lifecycle_noop_spec`: a shown sheet ignores a second
`show()`, and a hidden sheet ignores `hide()`. -/
theorem lifecycle_noop_spec_witness :
    showStep defaultConfig passiveEnv { hiddenState with isShown := true } =
        { state := { hiddenState with isShown := true }, events := [],
          backdropCreated := false } ∧
      hideStep defaultConfig passiveEnv hiddenState =
        { state := hiddenState, events := [], backdropCreated := false } :=
  ⟨(lifecycle_noop_spec defaultConfig passiveEnv
      { hiddenState with isShown := true }).1 (Or.inl rfl),
    (lifecycle_noop_spec defaultConfig passiveEnv hiddenState).2 (Or.inl rfl)⟩

/-- Claim C7: when a listener cancels the pre-visual `show`
notification, `show()` dispatches only that notification and changes
nothing: the state (including `isShown`, `isTransitioning`, and the
visual `showing`/`show` class markers) is untouched and no backdrop
is created. -/
theorem show_prevented_spec (cfg : Config) (env : ListenerEnv) (s : SheetState)
    (he : s.elementPresent = true)
    (h1 : s.isShown = false)
    (h2 : s.isTransitioning = false)
    (hp : env.preventShow = true) :
    showStep cfg env s =
      { state := s, events := [EventName.showEvent], backdropCreated := false } := by
  unfold showStep
  simp [he, h1, h2, hp]

/-- Witness for `show_prevented_spec` at a concrete hidden sheet. -/
theorem show_prevented_spec_witness :
    showStep defaultConfig { passiveEnv with preventShow := true } hiddenState =
      { state := hiddenState, events := [EventName.showEvent], backdropCreated := false } :=
  show_prevented_spec defaultConfig { passiveEnv with preventShow := true } hiddenState
    rfl rfl rfl rfl

/-- A direct child of `document.body`, with the two markers the inert
management touches. -/
structure DomNode where
  id : ℕ
  inert : Bool
  ariaHidden : Option String
  deriving DecidableEq, Repr

/-- The per-node previous state stored in the `#inertedNodes` map:
either an object with an `inert` field (native `inert` supported) or
one with an `ariaHidden` field (fallback). -/
inductive PrevMark
  | inertMark : Bool → PrevMark
  | ariaMark : Option String → PrevMark
  deriving DecidableEq, Repr

/-- One iteration of the `#applyInert` loop on a non-skipped node:
record the previous marker, then mark the node. -/
def applyInertNode (supports : Bool) (n : DomNode) : DomNode × PrevMark :=
  if supports then ({ n with inert := true }, .inertMark n.inert)
  else ({ n with ariaHidden := some "true" }, .ariaMark n.ariaHidden)

/-- `#applyInert`: walks the body children, skips the sheet element
and the backdrop (the `excluded` ids), marks every other node, and
records each previous marker in the instance-owned store. -/
def applyInert (supports : Bool) (excluded : List ℕ) :
    List DomNode → List DomNode × List (ℕ × PrevMark)
  | [] => ([], [])
  | n :: rest =>
    let tail := applyInert supports excluded rest
    if excluded.contains n.id then (n :: tail.1, tail.2)
    else
      let marked := applyInertNode supports n
      (marked.1 :: tail.1, (n.id, marked.2) :: tail.2)

/-- Restoration of one node from its stored previous marker (the
`#removeInert` loop body; a marker of the other kind reads as the
absent JavaScript property). -/
def restoreNode (supports : Bool) (prev : PrevMark) (n : DomNode) : DomNode :=
  if supports then
    match prev with
    | .inertMark b => { n with inert := b }
    | .ariaMark _ => { n with inert := false }
  else
    match prev with
    | .ariaMark a => { n with ariaHidden := a }
    | .inertMark _ => { n with ariaHidden := none }

/-- `#removeInert`: restores exactly the nodes recorded in the
instance-owned store, leaving every other node untouched. -/
def removeInert (supports : Bool) (store : List (ℕ × PrevMark)) (nodes : List DomNode) :
    List DomNode :=
  nodes.map fun n =>
    match store.lookup n.id with
    | none => n
    | some prev => restoreNode supports prev n

lemma restoreNode_applyInertNode (supports : Bool) (n : DomNode) :
    restoreNode supports (applyInertNode supports n).2 (applyInertNode supports n).1 = n := by
  cases supports <;> simp [applyInertNode, restoreNode]

lemma applyInertNode_id (supports : Bool) (n : DomNode) :
    (applyInertNode supports n).1.id = n.id := by
  cases supports <;> simp [applyInertNode]

lemma applyInert_cons (supports : Bool) (excluded : List ℕ) (n : DomNode)
    (rest : List DomNode) :
    applyInert supports excluded (n :: rest) =
      if excluded.contains n.id then
        (n :: (applyInert supports excluded rest).1, (applyInert supports excluded rest).2)
      else
        ((applyInertNode supports n).1 :: (applyInert supports excluded rest).1,
          (n.id, (applyInertNode supports n).2) :: (applyInert supports excluded rest).2) := rfl

lemma applyInert_cons_skip (supports : Bool) (excluded : List ℕ) (n : DomNode)
    (rest : List DomNode) (hex : excluded.contains n.id = true) :
    applyInert supports excluded (n :: rest) =
      (n :: (applyInert supports excluded rest).1, (applyInert supports excluded rest).2) := by
  rw [applyInert_cons, if_pos hex]

lemma applyInert_cons_mark (supports : Bool) (excluded : List ℕ) (n : DomNode)
    (rest : List DomNode) (hex : excluded.contains n.id = false) :
    applyInert supports excluded (n :: rest) =
      ((applyInertNode supports n).1 :: (applyInert supports excluded rest).1,
        (n.id, (applyInertNode supports n).2) :: (applyInert supports excluded rest).2) := by
  rw [applyInert_cons, if_neg]
  rw [hex]
  exact Bool.false_ne_true

lemma applyInert_fst_ids (supports : Bool) (excluded : List ℕ) (nodes : List DomNode) :
    (applyInert supports excluded nodes).1.map DomNode.id = nodes.map DomNode.id := by
  induction nodes with
  | nil => rfl
  | cons n rest ih =>
    rcases Bool.eq_false_or_eq_true (excluded.contains n.id) with hex | hex
    · rw [applyInert_cons_skip supports excluded n rest hex]
      simp only [List.map_cons]
      rw [ih]
    · rw [applyInert_cons_mark supports excluded n rest hex]
      simp only [List.map_cons]
      rw [applyInertNode_id, ih]

lemma applyInert_store_ids_sub (supports : Bool) (excluded : List ℕ) (nodes : List DomNode) :
    ∀ p ∈ (applyInert supports excluded nodes).2, p.1 ∈ nodes.map DomNode.id := by
  induction nodes with
  | nil => simp [applyInert]
  | cons n rest ih =>
    intro p hp
    rcases Bool.eq_false_or_eq_true (excluded.contains n.id) with hex | hex
    · rw [applyInert_cons_skip supports excluded n rest hex] at hp
      exact List.mem_cons_of_mem _ (ih p hp)
    · rw [applyInert_cons_mark supports excluded n rest hex] at hp
      simp only [List.mem_cons] at hp
      rcases hp with hp | hp
      · subst hp
        simp
      · exact List.mem_cons_of_mem _ (ih p hp)

lemma sheetLookup_eq_none {store : List (ℕ × PrevMark)} {k : ℕ}
    (h : k ∉ store.map Prod.fst) : store.lookup k = none := by
  induction store with
  | nil => rfl
  | cons a rest ih =>
    simp only [List.map_cons, List.mem_cons, not_or] at h
    have hne : (k == a.1) = false := beq_eq_false_iff_ne.mpr h.1
    cases a with
    | mk k0 v0 =>
      simp only [List.lookup]
      rw [hne]
      exact ih h.2

lemma removeInert_notmem (supports : Bool) (store : List (ℕ × PrevMark))
    (nodes : List DomNode)
    (h : ∀ n ∈ nodes, n.id ∉ store.map Prod.fst) :
    removeInert supports store nodes = nodes := by
  unfold removeInert
  have hcong : nodes.map (fun n =>
      match store.lookup n.id with
      | none => n
      | some prev => restoreNode supports prev n) = nodes.map id := by
    apply List.map_congr_left
    intro n hn
    rw [sheetLookup_eq_none (h n hn)]
    rfl
  rw [hcong, List.map_id]

lemma removeInert_cons_skip (supports : Bool) (a : ℕ × PrevMark)
    (store : List (ℕ × PrevMark)) (nodes : List DomNode)
    (h : a.1 ∉ nodes.map DomNode.id) :
    removeInert supports (a :: store) nodes = removeInert supports store nodes := by
  unfold removeInert
  apply List.map_congr_left
  intro n hn
  have hne : (n.id == a.1) = false := by
    refine beq_eq_false_iff_ne.mpr fun hh => h ?_
    rw [← hh]
    exact List.mem_map_of_mem DomNode.id hn
  cases a with
  | mk k0 v0 =>
    simp only [List.lookup]
    rw [hne]

lemma removeInert_cons_node (supports : Bool) (store : List (ℕ × PrevMark))
    (n : DomNode) (rest : List DomNode) :
    removeInert supports store (n :: rest) =
      (match store.lookup n.id with
        | none => n
        | some prev => restoreNode supports prev n) :: removeInert supports store rest := by
  unfold removeInert
  rw [List.map_cons]

lemma removeInert_applyInert (supports : Bool) (excluded : List ℕ) (nodes : List DomNode)
    (hnodup : (nodes.map DomNode.id).Nodup) :
    removeInert supports (applyInert supports excluded nodes).2
      (applyInert supports excluded nodes).1 = nodes := by
  induction nodes with
  | nil => rfl
  | cons n rest ih =>
    rw [List.map_cons, List.nodup_cons] at hnodup
    obtain ⟨hnotmem, hrest⟩ := hnodup
    rcases Bool.eq_false_or_eq_true (excluded.contains n.id) with hex | hex
    · rw [applyInert_cons_skip supports excluded n rest hex]
      rw [removeInert_cons_node]
      have hnone : (applyInert supports excluded rest).2.lookup n.id = none := by
        apply sheetLookup_eq_none
        intro hmem
        rw [List.mem_map] at hmem
        obtain ⟨p, hp, hpid⟩ := hmem
        exact hnotmem (hpid ▸ applyInert_store_ids_sub supports excluded rest p hp)
      rw [hnone, ih hrest]
    · rw [applyInert_cons_mark supports excluded n rest hex]
      rw [removeInert_cons_node]
      have hid : (applyInertNode supports n).1.id = n.id := applyInertNode_id supports n
      have hhead : ((n.id, (applyInertNode supports n).2) ::
          (applyInert supports excluded rest).2).lookup (applyInertNode supports n).1.id =
          some (applyInertNode supports n).2 := by
        simp only [List.lookup, hid, beq_self_eq_true]
      rw [hhead]
      have htail : removeInert supports
          ((n.id, (applyInertNode supports n).2) :: (applyInert supports excluded rest).2)
          (applyInert supports excluded rest).1 =
          removeInert supports (applyInert supports excluded rest).2
            (applyInert supports excluded rest).1 := by
        apply removeInert_cons_skip
        rw [applyInert_fst_ids]
        exact hnotmem
      rw [htail]
      show restoreNode supports (applyInertNode supports n).2 (applyInertNode supports n).1 ::
        removeInert supports (applyInert supports excluded rest).2
          (applyInert supports excluded rest).1 = n :: rest
      rw [restoreNode_applyInertNode, ih hrest]

/-- Counterexample to claim C9: the body-level layout compensation is
not restored to its prior state.  A body that had inline
`padding-right: 20px; overflow: auto` before the sheet opened is
reset to empty inline styles at hide completion, because
`#resetBodyPadding` assigns empty strings unconditionally. -/
theorem resetBodyPadding_counterexample :
    resetBodyPadding
        (adjustBodyPadding true 15 { paddingRight := "20px", overflow := "auto" }) =
      { paddingRight := "", overflow := "" } ∧
    resetBodyPadding
        (adjustBodyPadding true 15 { paddingRight := "20px", overflow := "auto" }) ≠
      { paddingRight := "20px", overflow := "auto" } := by
  refine ⟨rfl, ?_⟩
  intro h
  have hpr := congrArg BodyStyle.paddingRight h
  simp [resetBodyPadding] at hpr

/-- Claim C9 amended: the outside-content inertness markers are
restored to their exact prior per-node state, and an instance
restores only nodes recorded in its own store, never nodes marked by
another instance; the body-level layout compensation, however, is
merely cleared — `#resetBodyPadding` writes empty inline styles
regardless of the prior body style. -/
theorem inert_restore_spec (supports : Bool) (excluded : List ℕ) (nodes : List DomNode)
    (b : BodyStyle)
    (hnodup : (nodes.map DomNode.id).Nodup) :
    removeInert supports (applyInert supports excluded nodes).2
        (applyInert supports excluded nodes).1 = nodes ∧
      (∀ store : List (ℕ × PrevMark),
        (∀ n ∈ nodes, n.id ∉ store.map Prod.fst) →
        removeInert supports store nodes = nodes) ∧
      resetBodyPadding b = { paddingRight := "", overflow := "" } :=
  ⟨removeInert_applyInert supports excluded nodes hnodup,
    fun store h => removeInert_notmem supports store nodes h,
    rfl⟩

/-- Witness for `inert_restore_spec`: two sibling nodes with distinct
markers round-trip through apply/remove, and a store owned by another
instance leaves them untouched. -/
theorem inert_restore_spec_witness :
    removeInert true
        (applyInert true [9]
          [{ id := 1, inert := true, ariaHidden := none },
            { id := 2, inert := false, ariaHidden := some "true" }]).2
        (applyInert true [9]
          [{ id := 1, inert := true, ariaHidden := none },
            { id := 2, inert := false, ariaHidden := some "true" }]).1 =
      [{ id := 1, inert := true, ariaHidden := none },
        { id := 2, inert := false, ariaHidden := some "true" }] ∧
    removeInert true [(3, PrevMark.inertMark false)]
        [{ id := 1, inert := true, ariaHidden := none },
          { id := 2, inert := false, ariaHidden := some "true" }] =
      [{ id := 1, inert := true, ariaHidden := none },
        { id := 2, inert := false, ariaHidden := some "true" }] := by
  have h := inert_restore_spec true [9]
    [{ id := 1, inert := true, ariaHidden := none },
      { id := 2, inert := false, ariaHidden := some "true" }]
    { paddingRight := "", overflow := "" }
    (by decide)
  exact ⟨h.1, h.2.1 [(3, PrevMark.inertMark false)] (by decide)⟩

/-- Runtime JavaScript values that can occur as configuration option
values in this component. -/
inductive JSValue
  | boolV : Bool → JSValue
  | numV : ℚ → JSValue
  | strV : String → JSValue
  | nullV : JSValue
  deriving DecidableEq, Repr

/-- `getValueType` from `utils.js`: the lowercase type tag derived
from `Object.prototype.toString`. -/
def getValueType : JSValue → String
  | .boolV _ => "boolean"
  | .numV _ => "number"
  | .strV _ => "string"
  | .nullV => "null"

/-- Split a character list on the bar character (the `split` step of
`parseExpectedTypes`). -/
def splitOnBar : List Char → List (List Char)
  | [] => [[]]
  | c :: cs =>
    let rest := splitOnBar cs
    if c = '|' then [] :: rest
    else
      match rest with
      | [] => [[c]]
      | grp :: grps => (c :: grp) :: grps

/-- Remove one leading opening and one trailing closing parenthesis
(the anchored replace step of `parseExpectedTypes`). -/
def stripParens (cs : List Char) : List Char :=
  let cs1 :=
    match cs with
    | c :: rest => if c = '(' then rest else cs
    | [] => cs
  if cs1.getLast? = some ')' then cs1.dropLast else cs1

/-- `parseExpectedTypes` from `utils.js`: strip whitespace, strip the
surrounding parentheses, split on the bar, and drop empty entries. -/
def parseExpectedTypes (types : String) : List String :=
  ((splitOnBar (stripParens (types.data.filter fun c => !c.isWhitespace))).map
      fun cs => String.mk cs).filter fun s => s ≠ ""

/-- The `TypeError` message built by `validateConfigTypes`. -/
def typeErrorMessage (componentName propertyName : String) (allowedTypes : List String)
    (actualType : String) : String :=
  "[" ++ componentName ++ "] Option \"" ++ propertyName ++ "\" has invalid type: " ++
    "expected " ++ String.intercalate " | " allowedTypes ++ ", but received " ++
    actualType ++ "."

/-- `validateConfigTypes` from `utils.js`: walks the type definitions
in order; a present configuration value whose runtime type is not
among the allowed set raises a `TypeError` with the message above;
absent (undefined) values are skipped. -/
def validateConfigTypes (componentName : String) (config : String → Option JSValue) :
    List (String × String) → Except String Unit
  | [] => .ok ()
  | (propertyName, expectedTypes) :: rest =>
    match config propertyName with
    | none => validateConfigTypes componentName config rest
    | some actualValue =>
      let actualType := getValueType actualValue
      let allowedTypes := parseExpectedTypes expectedTypes
      if allowedTypes.contains actualType then
        validateConfigTypes componentName config rest
      else
        .error (typeErrorMessage componentName propertyName allowedTypes actualType)

/-- The `Default` object of `constants.js` as a property map. -/
def defaultConfigMap : List (String × JSValue) :=
  [("backdrop", .boolV true),
   ("keyboard", .boolV true),
   ("focus", .boolV true),
   ("gestures", .boolV true),
   ("swipeThreshold", .numV 50),
   ("velocityThreshold", .numV 0.5),
   ("minCloseDistance", .numV 50),
   ("closeThresholdRatio", .numV 0.3),
   ("animationDuration", .numV 300),
   ("projectionTime", .numV 200),
   ("dragResistanceUp", .numV 0.75),
   ("dragResistanceDown", .numV 0.01)]

/-- The `DefaultType` object of `constants.js`. -/
def defaultTypeMap : List (String × String) :=
  [("backdrop", "(boolean|string)"),
   ("keyboard", "boolean"),
   ("focus", "boolean"),
   ("gestures", "boolean"),
   ("swipeThreshold", "number"),
   ("velocityThreshold", "number"),
   ("minCloseDistance", "number"),
   ("closeThresholdRatio", "number"),
   ("animationDuration", "number"),
   ("projectionTime", "number"),
   ("dragResistanceUp", "number"),
   ("dragResistanceDown", "number")]

/-- The spread merge of the defaults with the user overrides performed
by the constructor (with no data attributes present), read as a
property lookup. -/
def mergedConfig (overrides : List (String × JSValue)) : String → Option JSValue :=
  fun name =>
    match overrides.lookup name with
    | some v => some v
    | none => defaultConfigMap.lookup name

/-- The per-element instance registry (the `INSTANCES` weak map): each
entry associates an element id with the configuration overrides the
instance was created with. -/
abbrev Registry := List (ℕ × List (String × JSValue))

/-- The constructor: if the element already has an instance it is
returned unchanged — the new configuration is neither merged nor
validated; otherwise the merged configuration is type-validated, a
`TypeError` aborting the construction before the instance is
registered.  The boolean of the result records whether an existing
instance was returned. -/
def constructSheet (registry : Registry) (elemId : ℕ)
    (overrides : List (String × JSValue)) : Except String (Registry × Bool) :=
  if (registry.map Prod.fst).contains elemId then .ok (registry, true)
  else
    match validateConfigTypes "sheet" (mergedConfig overrides) defaultTypeMap with
    | .error msg => .error msg
    | .ok _ => .ok ((elemId, overrides) :: registry, false)

/-- `getOrCreateInstance`: returns the existing instance when there is
one, otherwise defers to the constructor. -/
def getOrCreateInstance (registry : Registry) (elemId : ℕ)
    (overrides : List (String × JSValue)) : Except String (Registry × Bool) :=
  if (registry.map Prod.fst).contains elemId then .ok (registry, true)
  else constructSheet registry elemId overrides

/-- Claim C8: constructing over an element with no existing instance,
with a single configuration override whose runtime type is not among
the declared allowed types of that option, fails with a `TypeError`
whose message names the offending option, its expected type(s) and
the received type, and no instance is registered. -/
theorem construct_invalid_type_spec (registry : Registry) (elemId : ℕ)
    (p spec : String) (v : JSValue)
    (hfresh : (registry.map Prod.fst).contains elemId = false)
    (hmem : (p, spec) ∈ defaultTypeMap)
    (hinvalid : (parseExpectedTypes spec).contains (getValueType v) = false) :
    constructSheet registry elemId [(p, v)] =
      .error (typeErrorMessage "sheet" p (parseExpectedTypes spec) (getValueType v)) := by
  unfold constructSheet
  rw [hfresh, if_neg Bool.false_ne_true]
  simp only [defaultTypeMap] at hmem
  fin_cases hmem <;>
    cases v <;>
      simp only [getValueType] at hinvalid ⊢ <;>
      first
        | exact absurd hinvalid (by decide)
        | rfl

/-- Witness for `construct_invalid_type_spec`: an `animationDuration`
override given as the string `"300"` makes the constructor fail with
the exact message from the specification scenario. -/
theorem construct_invalid_type_spec_witness :
    constructSheet [] 0 [("animationDuration", JSValue.strV "300")] =
      .error
        "[sheet] Option \"animationDuration\" has invalid type: expected number, but received string." :=
  construct_invalid_type_spec [] 0 "animationDuration" "number" (JSValue.strV "300")
    rfl (by decide) rfl

/-- Claim C10: constructing (or `getOrCreateInstance`) for an element
that already has an instance returns that instance with the registry
unchanged; the supplied configuration is discarded without being
validated, so no error is possible in this case. -/
theorem construct_existing_spec (registry : Registry) (elemId : ℕ)
    (overrides : List (String × JSValue))
    (hmem : (registry.map Prod.fst).contains elemId = true) :
    constructSheet registry elemId overrides = .ok (registry, true) ∧
      getOrCreateInstance registry elemId overrides = .ok (registry, true) := by
  unfold constructSheet getOrCreateInstance
  rw [hmem]
  exact ⟨if_pos rfl, if_pos rfl⟩

/-- Witness for `construct_existing_spec`: re-constructing over an
element that has an instance, passing a configuration whose value
type is invalid, returns the existing instance and raises nothing. -/
theorem construct_existing_spec_witness :
    constructSheet [(0, [])] 0 [("animationDuration", JSValue.strV "300")] =
      .ok ([(0, [])], true) :=
  (construct_existing_spec [(0, [])] 0 [("animationDuration", JSValue.strV "300")] rfl).1

end BootstrapSheet
